import Mathlib

/-
Verification of the batched receive / borrow-return core of the go-snf
repository: the recv_req_many family in snf/receiver.h, the ring_reader
family in snf/ring_reader.h, the single-packet filtered receive in
snf/recv.h and the BPF helpers in snf/filter.c.  The external SNF ring
transport and the pcap filter evaluator are modelled as oracles; every
call made to the transport is recorded in a trace so that claims about
which calls happen can be stated.  All uint32_t arithmetic is modelled
on Nat with explicit reduction modulo 2^32.
-/

namespace GoSnf

/-- Modulus of uint32_t arithmetic. -/
def U32MOD : Nat := 4294967296

/-- The value (uint32_t)(-1), the release-everything sentinel passed to
snf_ring_return_many by the fallback path in receiver.h. -/
def U32ALL : Nat := 4294967295

/-- errno value ENOMEM returned by the constructors on allocation failure. -/
def ENOMEM : Int := 12

/-- errno value ENOMSG returned by ring_recv when the filter rejects. -/
def ENOMSG : Int := 42

/-- Nanoseconds per second, the BILLION macro. -/
def BILLION : Nat := 1000000000

/-- Opaque packet bytes; only handed to the filter evaluator. -/
abbrev Packet := List Nat

/-- One BPF instruction (code, jt, jf, k); opaque bytecode for this core. -/
structure BpfInsn where
  code : Nat
  jt : Nat
  jf : Nat
  k : Nat
deriving DecidableEq

/-- struct bpf_program: instruction count and the instruction storage
pointer; none models a NULL bf_insns pointer. -/
structure BpfProgram where
  bf_len : Nat
  bf_insns : Option (List BpfInsn)
deriving DecidableEq

/-- struct pcap_pkthdr as filled by this core. -/
structure PcapPkthdr where
  ts_sec : Nat
  ts_usec : Nat
  caplen : Nat
  len : Nat
deriving DecidableEq

/-- The external pcap_offline_filter evaluator, an oracle.  It returns an
int; 0 means the packet is rejected, nonzero means accepted. -/
abbrev PcapEval := BpfProgram → PcapPkthdr → Packet → Int

/-- struct snf_recv_req: one received packet descriptor. -/
structure SnfRecvReq where
  pkt : Packet
  length : Nat
  timestamp : Nat
  portnum : Nat
  length_data : Nat
  hw_hash : Nat
deriving DecidableEq

/-- An all-zero descriptor, as produced by calloc. -/
def zeroReq : SnfRecvReq := ⟨[], 0, 0, 0, 0, 0⟩

/-- Exact (unbounded) sum of the length_data fields of a descriptor list. -/
def sumLenData (l : List SnfRecvReq) : Nat :=
  (l.map SnfRecvReq.length_data).sum

/-- uint32_t accumulation of length_data over a descriptor list: each
addition wraps modulo 2^32, exactly like the C += on a uint32_t. -/
def u32_accum : Nat → List SnfRecvReq → Nat
  | acc, [] => acc
  | acc, r :: rs => u32_accum ((acc + r.length_data) % U32MOD) rs

/-- One call made to the SNF ring transport. -/
inductive RingEvent where
  | recvOne : RingEvent
  | recvMany : Nat → RingEvent
  | returnMany : Nat → RingEvent
deriving DecidableEq

/-- True exactly for snf_ring_return_many calls. -/
def RingEvent.isReturn : RingEvent → Bool
  | RingEvent.returnMany _ => true
  | _ => false

/-- True exactly for snf_ring_recv and snf_ring_recv_many calls. -/
def RingEvent.isRecv : RingEvent → Bool
  | RingEvent.recvOne => true
  | RingEvent.recvMany _ => true
  | _ => false

/-- Result of the transport's snf_ring_recv: status, the descriptor it
wrote (meaningful on status 0) and the next transport state. -/
structure RecvOut1 (σ : Type) where
  rc : Int
  req : SnfRecvReq
  st : σ
deriving DecidableEq

/-- Result of the transport's snf_ring_recv_many: status, the filled
descriptors (meaningful on status 0) and the next transport state. -/
structure RecvOutN (σ : Type) where
  rc : Int
  filled : List SnfRecvReq
  st : σ
deriving DecidableEq

/-- Result of the transport's snf_ring_return_many. -/
structure RetOut (σ : Type) where
  rc : Int
  st : σ
deriving DecidableEq

/-- The external SNF ring transport, an oracle with internal state σ.
Arguments mirror the C calls: snf_ring_recv takes the timeout,
snf_ring_recv_many takes timeout and nreq_in, snf_ring_return_many takes
the uint32_t data_qlen argument. -/
structure Transport (σ : Type) where
  ring_recv : σ → Int → RecvOut1 σ
  ring_recv_many : σ → Int → Nat → RecvOutN σ
  ring_return_many : σ → Nat → RetOut σ

/-- struct recv_req_many from receiver.h. -/
structure RecvReqMany where
  reqs : List SnfRecvReq
  bpf_result : List Int
  nreq_in : Nat
  nreq_out : Nat
  total_len : Nat
  fp : BpfProgram
deriving DecidableEq

/-- The pcap_pkthdr built by go_snf_post_process: timestamp fields are
left zero, caplen and len are the descriptor's captured length. -/
def post_hdr (req : SnfRecvReq) : PcapPkthdr :=
  ⟨0, 0, req.length, req.length⟩

/-- The pcap_pkthdr built by ring_recv in recv.h: the nanosecond
timestamp is split into seconds and microseconds. -/
def recv_hdr (req : SnfRecvReq) : PcapPkthdr :=
  ⟨req.timestamp / BILLION, req.timestamp % BILLION / 1000,
    req.length, req.length⟩

/-- One filter-result slot update of go_snf_post_process: the slot is
overwritten with the evaluator result only when the program has a nonzero
instruction count and a non-NULL instruction pointer; otherwise the old
slot value is kept. -/
def bpf_slot (E : PcapEval) (fp : BpfProgram) (req : SnfRecvReq) (old : Int) : Int :=
  if fp.bf_len ≠ 0 ∧ fp.bf_insns.isSome then E fp (post_hdr req) req.pkt else old

/-- go_snf_post_process from receiver.h: accumulates length_data of the
first nreq_out descriptors into total_len (uint32_t arithmetic) and runs
the filter on each of them when a program is installed. -/
def go_snf_post_process (E : PcapEval) (v : RecvReqMany) : RecvReqMany :=
  { v with
    total_len := u32_accum v.total_len (v.reqs.take v.nreq_out)
    bpf_result :=
      List.zipWith (bpf_slot E v.fp) (v.reqs.take v.nreq_out)
        (v.bpf_result.take v.nreq_out) ++ v.bpf_result.drop v.nreq_out }

/-- Result of a receiver.h operation: status, transport state, the
updated recv_req_many and the trace of transport calls made. -/
structure GoRecvOut (σ : Type) where
  rc : Int
  ring : σ
  vec : RecvReqMany
  trace : List RingEvent

/-- go_snf_return_many from receiver.h: asks the transport to release
total_len bytes; if that fails it retries once with the (uint32_t)(-1)
release-everything sentinel.  total_len is reset to 0 on both paths. -/
def go_snf_return_many (T : Transport σ) (s : σ) (v : RecvReqMany) :
    GoRecvOut σ :=
  if (T.ring_return_many s v.total_len).rc = 0 then
    ⟨0, (T.ring_return_many s v.total_len).st, { v with total_len := 0 },
      [RingEvent.returnMany v.total_len]⟩
  else
    ⟨(T.ring_return_many (T.ring_return_many s v.total_len).st U32ALL).rc,
      (T.ring_return_many (T.ring_return_many s v.total_len).st U32ALL).st,
      { v with total_len := 0 },
      [RingEvent.returnMany v.total_len, RingEvent.returnMany U32ALL]⟩

/-- go_snf_recv_many from receiver.h: for nreq_in == 1 delegates to
snf_ring_recv; otherwise first returns borrowed bytes (propagating a
return failure without receiving) and then calls snf_ring_recv_many.
On any failure nreq_out is set to 0; go_snf_post_process always runs. -/
def go_snf_recv_many (E : PcapEval) (T : Transport σ) (s : σ)
    (timeout_ms : Int) (v : RecvReqMany) : GoRecvOut σ :=
  if v.nreq_in = 1 then
    if (T.ring_recv s timeout_ms).rc = 0 then
      ⟨0, (T.ring_recv s timeout_ms).st,
        go_snf_post_process E
          { v with reqs := (T.ring_recv s timeout_ms).req :: v.reqs.drop 1,
                   nreq_out := 1 },
        [RingEvent.recvOne]⟩
    else
      ⟨(T.ring_recv s timeout_ms).rc, (T.ring_recv s timeout_ms).st,
        go_snf_post_process E { v with nreq_out := 0 }, [RingEvent.recvOne]⟩
  else
    if (go_snf_return_many T s v).rc = 0 then
      if (T.ring_recv_many (go_snf_return_many T s v).ring timeout_ms v.nreq_in).rc = 0 then
        ⟨0,
          (T.ring_recv_many (go_snf_return_many T s v).ring timeout_ms v.nreq_in).st,
          go_snf_post_process E
            { (go_snf_return_many T s v).vec with
              reqs :=
                (T.ring_recv_many (go_snf_return_many T s v).ring timeout_ms v.nreq_in).filled
                  ++ v.reqs.drop
                    (T.ring_recv_many (go_snf_return_many T s v).ring timeout_ms v.nreq_in).filled.length,
              nreq_out :=
                (T.ring_recv_many (go_snf_return_many T s v).ring timeout_ms v.nreq_in).filled.length },
          (go_snf_return_many T s v).trace ++ [RingEvent.recvMany v.nreq_in]⟩
      else
        ⟨(T.ring_recv_many (go_snf_return_many T s v).ring timeout_ms v.nreq_in).rc,
          (T.ring_recv_many (go_snf_return_many T s v).ring timeout_ms v.nreq_in).st,
          go_snf_post_process E { (go_snf_return_many T s v).vec with nreq_out := 0 },
          (go_snf_return_many T s v).trace ++ [RingEvent.recvMany v.nreq_in]⟩
    else
      ⟨(go_snf_return_many T s v).rc, (go_snf_return_many T s v).ring,
        go_snf_post_process E { (go_snf_return_many T s v).vec with nreq_out := 0 },
        (go_snf_return_many T s v).trace⟩

/-- Result of iterating go_snf_recv_many: final transport state, final
recv_req_many, concatenated trace, and the concatenation of the
populated descriptor prefixes of every cycle. -/
structure IterOut (σ : Type) where
  st : σ
  vec : RecvReqMany
  trace : List RingEvent
  recvd : List SnfRecvReq

/-- Iterate go_snf_recv_many a given number of cycles, collecting the
trace and the descriptors populated by each cycle. -/
def go_snf_iterate (E : PcapEval) (T : Transport σ) (timeout_ms : Int) :
    Nat → σ → RecvReqMany → IterOut σ
  | 0, s, v => ⟨s, v, [], []⟩
  | n + 1, s, v =>
    ⟨(go_snf_iterate E T timeout_ms n (go_snf_recv_many E T s timeout_ms v).ring
        (go_snf_recv_many E T s timeout_ms v).vec).st,
      (go_snf_iterate E T timeout_ms n (go_snf_recv_many E T s timeout_ms v).ring
        (go_snf_recv_many E T s timeout_ms v).vec).vec,
      (go_snf_recv_many E T s timeout_ms v).trace ++
        (go_snf_iterate E T timeout_ms n (go_snf_recv_many E T s timeout_ms v).ring
          (go_snf_recv_many E T s timeout_ms v).vec).trace,
      (go_snf_recv_many E T s timeout_ms v).vec.reqs.take
          (go_snf_recv_many E T s timeout_ms v).vec.nreq_out ++
        (go_snf_iterate E T timeout_ms n (go_snf_recv_many E T s timeout_ms v).ring
          (go_snf_recv_many E T s timeout_ms v).vec).recvd⟩

/-- struct ring_reader from ring_reader.h. -/
structure RingReader where
  timeout_ms : Int
  nreq_out : Nat
  nreq_in : Nat
  req_vector : List SnfRecvReq
deriving DecidableEq

/-- ring_reader_data_qlen from ring_reader.h: uint32_t sum of length_data
over the nreq_out received descriptors. -/
def ring_reader_data_qlen (r : RingReader) : Nat :=
  u32_accum 0 (r.req_vector.take r.nreq_out)

/-- Result of a ring_reader.h operation: status, transport state, updated
reader and the trace of transport calls made. -/
structure ReaderOut (σ : Type) where
  rc : Int
  st : σ
  reader : RingReader
  trace : List RingEvent
deriving DecidableEq

/-- ring_reader_recv_many from ring_reader.h: for nreq_in == 1 delegates
to snf_ring_recv and sets nreq_out to 1 exactly on success; otherwise
zeroes nreq_out and calls snf_ring_recv_many, which fills it on
success. -/
def ring_reader_recv_many (T : Transport σ) (s : σ) (r : RingReader) :
    ReaderOut σ :=
  if r.nreq_in = 1 then
    if (T.ring_recv s r.timeout_ms).rc = 0 then
      ⟨0, (T.ring_recv s r.timeout_ms).st,
        { r with req_vector := (T.ring_recv s r.timeout_ms).req :: r.req_vector.drop 1,
                 nreq_out := 1 },
        [RingEvent.recvOne]⟩
    else
      ⟨(T.ring_recv s r.timeout_ms).rc, (T.ring_recv s r.timeout_ms).st,
        { r with nreq_out := 0 }, [RingEvent.recvOne]⟩
  else
    if (T.ring_recv_many s r.timeout_ms r.nreq_in).rc = 0 then
      ⟨0, (T.ring_recv_many s r.timeout_ms r.nreq_in).st,
        { r with
          nreq_out := (T.ring_recv_many s r.timeout_ms r.nreq_in).filled.length,
          req_vector :=
            (T.ring_recv_many s r.timeout_ms r.nreq_in).filled ++
              r.req_vector.drop (T.ring_recv_many s r.timeout_ms r.nreq_in).filled.length },
        [RingEvent.recvMany r.nreq_in]⟩
    else
      ⟨(T.ring_recv_many s r.timeout_ms r.nreq_in).rc,
        (T.ring_recv_many s r.timeout_ms r.nreq_in).st,
        { r with nreq_out := 0 }, [RingEvent.recvMany r.nreq_in]⟩

/-- ring_reader_return_many from ring_reader.h: releases data_qlen bytes
through the transport only when nreq_in > 1, with no fallback call;
nreq_out is reset to 0 on every path. -/
def ring_reader_return_many (T : Transport σ) (s : σ) (r : RingReader) :
    ReaderOut σ :=
  if 1 < r.nreq_in then
    ⟨(T.ring_return_many s (ring_reader_data_qlen r)).rc,
      (T.ring_return_many s (ring_reader_data_qlen r)).st,
      { r with nreq_out := 0 },
      [RingEvent.returnMany (ring_reader_data_qlen r)]⟩
  else
    ⟨0, s, { r with nreq_out := 0 }, []⟩

/-- ring_reader_recharge from ring_reader.h: when packets are outstanding
it first returns them, propagating a return failure without receiving;
otherwise (or after a successful return) it receives new packets. -/
def ring_reader_recharge (T : Transport σ) (s : σ) (r : RingReader) :
    ReaderOut σ :=
  if 0 < r.nreq_out then
    if (ring_reader_return_many T s r).rc ≠ 0 then
      ring_reader_return_many T s r
    else
      ⟨(ring_reader_recv_many T (ring_reader_return_many T s r).st
          (ring_reader_return_many T s r).reader).rc,
        (ring_reader_recv_many T (ring_reader_return_many T s r).st
          (ring_reader_return_many T s r).reader).st,
        (ring_reader_recv_many T (ring_reader_return_many T s r).st
          (ring_reader_return_many T s r).reader).reader,
        (ring_reader_return_many T s r).trace ++
          (ring_reader_recv_many T (ring_reader_return_many T s r).st
            (ring_reader_return_many T s r).reader).trace⟩
  else
    ring_reader_recv_many T s r

/-- ring_recv from recv.h: single-packet receive with inline filtering.
A transport failure is returned as is; with a zero-length program the
packet is accepted without evaluation; otherwise a zero evaluator result
turns into ENOMSG. -/
def ring_recv (E : PcapEval) (T : Transport σ) (s : σ) (timeout_ms : Int)
    (req0 : SnfRecvReq) (fp : BpfProgram) : RecvOut1 σ :=
  if (T.ring_recv s timeout_ms).rc ≠ 0 then
    ⟨(T.ring_recv s timeout_ms).rc, req0, (T.ring_recv s timeout_ms).st⟩
  else if fp.bf_len = 0 then
    ⟨0, (T.ring_recv s timeout_ms).req, (T.ring_recv s timeout_ms).st⟩
  else if E fp (recv_hdr (T.ring_recv s timeout_ms).req)
      (T.ring_recv s timeout_ms).req.pkt = 0 then
    ⟨ENOMSG, (T.ring_recv s timeout_ms).req, (T.ring_recv s timeout_ms).st⟩
  else
    ⟨0, (T.ring_recv s timeout_ms).req, (T.ring_recv s timeout_ms).st⟩

/-- Heap model for the constructors: a script of allocation outcomes
(true = success; an exhausted script always succeeds), the identifiers
of live allocations and the next fresh identifier. -/
structure AllocState where
  script : List Bool
  live : List Nat
  next : Nat
deriving DecidableEq

/-- Result of one malloc or calloc attempt. -/
structure AllocOut where
  ptr : Option Nat
  st : AllocState
deriving DecidableEq

/-- One malloc or calloc attempt against the heap model. -/
def alloc_step (st : AllocState) : AllocOut :=
  match st.script with
  | [] => ⟨some st.next, ⟨[], st.next :: st.live, st.next + 1⟩⟩
  | b :: rest =>
    if b then ⟨some st.next, ⟨rest, st.next :: st.live, st.next + 1⟩⟩
    else ⟨none, ⟨rest, st.live, st.next⟩⟩

/-- free: removes a live allocation; free of NULL is a no-op. -/
def free_ptr (st : AllocState) (p : Option Nat) : AllocState :=
  match p with
  | none => st
  | some id => { st with live := st.live.erase id }

/-- The allocations backing one recv_req_many: the struct itself, the
descriptor array pointer and the filter-result array pointer (none
models a still-NULL pointer), together with the abstract value. -/
structure BatchMem where
  hdr : Nat
  reqs_ptr : Option Nat
  bpf_ptr : Option Nat
  vec : RecvReqMany
deriving DecidableEq

/-- A recv_req_many struct fresh out of calloc: everything zero. -/
def zeroVec : RecvReqMany := ⟨[], [], 0, 0, 0, ⟨0, none⟩⟩

/-- go_snf_recv_req_many_destroy from receiver.h: frees the two arrays
(no-ops on NULL) and then the struct itself. -/
def go_snf_recv_req_many_destroy (st : AllocState) (b : Option BatchMem) :
    AllocState :=
  match b with
  | none => st
  | some m => free_ptr (free_ptr (free_ptr st m.reqs_ptr) m.bpf_ptr) (some m.hdr)

/-- Result of go_snf_recv_req_many_create: status, the constructed batch
on success, and the final heap. -/
structure CreateOut where
  rc : Int
  out : Option BatchMem
  st : AllocState
deriving DecidableEq

/-- go_snf_recv_req_many_create from receiver.h: three calloc calls; any
failure destroys whatever was already allocated and returns ENOMEM.  On
success the batch has capacity nreq_in, zero populated count and zero
borrowed bytes. -/
def go_snf_recv_req_many_create (st : AllocState) (nreq_in : Nat) : CreateOut :=
  match (alloc_step st).ptr with
  | none => ⟨ENOMEM, none, (alloc_step st).st⟩
  | some hdr =>
    match (alloc_step (alloc_step st).st).ptr with
    | none =>
      ⟨ENOMEM, none,
        go_snf_recv_req_many_destroy (alloc_step (alloc_step st).st).st
          (some ⟨hdr, none, none, zeroVec⟩)⟩
    | some rid =>
      match (alloc_step (alloc_step (alloc_step st).st).st).ptr with
      | none =>
        ⟨ENOMEM, none,
          go_snf_recv_req_many_destroy (alloc_step (alloc_step (alloc_step st).st).st).st
            (some ⟨hdr, some rid, none, zeroVec⟩)⟩
      | some bid =>
        ⟨0,
          some ⟨hdr, some rid, some bid,
            ⟨List.replicate nreq_in zeroReq, List.replicate nreq_in 0,
              nreq_in, 0, 0, ⟨0, none⟩⟩⟩,
          (alloc_step (alloc_step (alloc_step st).st).st).st⟩

/-- The allocations backing one bpf_program made by go_bpf_make, with
the program value. -/
structure BpfMade where
  fpid : Nat
  insid : Nat
  fp : BpfProgram
deriving DecidableEq

/-- Result of go_bpf_make. -/
structure BpfMakeOut where
  rc : Int
  out : Option BpfMade
  st : AllocState
deriving DecidableEq

/-- go_bpf_make from filter.c: allocates the program struct and a copy of
the instruction array; if the second allocation fails the first is freed
before returning ENOMEM.  On success the program holds the instruction
count and the copied instructions. -/
def go_bpf_make (st : AllocState) (insns : List BpfInsn) : BpfMakeOut :=
  match (alloc_step st).ptr with
  | none => ⟨ENOMEM, none, (alloc_step st).st⟩
  | some fpid =>
    match (alloc_step (alloc_step st).st).ptr with
    | none => ⟨ENOMEM, none, free_ptr (alloc_step (alloc_step st).st).st (some fpid)⟩
    | some insid =>
      ⟨0, some ⟨fpid, insid, ⟨insns.length, some insns⟩⟩,
        (alloc_step (alloc_step st).st).st⟩

/-- go_bpf_test from filter.c: runs the evaluator count times in a loop
and returns the res local, which holds the last evaluation result; when
the loop body never runs, res is uninitialized, modelled as none. -/
def go_bpf_test (E : PcapEval) (fp : BpfProgram) (hdr : PcapPkthdr)
    (pkt : Packet) (count : Int) : Option Int :=
  (List.range count.toNat).foldl (fun _ _ => some (E fp hdr pkt)) none

/-- True when a trace contains no snf_ring_return_many call. -/
def noReturnEvents (tr : List RingEvent) : Bool :=
  tr.all fun e => !e.isReturn

/-- True when a trace contains no receive call of either kind. -/
def noRecvEvents (tr : List RingEvent) : Bool :=
  tr.all fun e => !e.isRecv

/-- An evaluator oracle that accepts every packet; used by concrete
instantiations. -/
def evalAccept : PcapEval := fun _ _ _ => 1

/-- Closed form of the uint32_t accumulation: starting below 2^32 it
computes the exact sum reduced modulo 2^32. -/
theorem u32_accum_eq (l : List SnfRecvReq) (acc : Nat) (h : acc < U32MOD) :
    u32_accum acc l = (acc + sumLenData l) % U32MOD := by
  induction l generalizing acc with
  | nil =>
    simp only [u32_accum, sumLenData, List.map_nil, List.sum_nil, Nat.add_zero]
    exact (Nat.mod_eq_of_lt h).symm
  | cons r rs ih =>
    simp only [u32_accum, sumLenData, List.map_cons, List.sum_cons]
    rw [ih _ (Nat.mod_lt _ (by decide))]
    rw [Nat.mod_add_mod, Nat.add_assoc]
    rfl

/-- zipWith with a function that keeps its second argument returns the
second list whenever it is not longer than the first. -/
theorem zipWith_keep_right (f : α → β → β) (hf : ∀ a b, f a b = b) :
    ∀ (l1 : List α) (l2 : List β), l2.length ≤ l1.length →
      List.zipWith f l1 l2 = l2 := by
  intro l1
  induction l1 with
  | nil => intro l2 h; cases l2 with
    | nil => rfl
    | cons b bs => simp at h
  | cons a as ih => intro l2 h; cases l2 with
    | nil => rfl
    | cons b bs =>
      simp only [List.zipWith_cons_cons, hf]
      rw [ih bs (by simpa using h)]

/-- go_snf_post_process does not change the capacity. -/
theorem go_snf_post_process_nreq_in (E : PcapEval) (v : RecvReqMany) :
    (go_snf_post_process E v).nreq_in = v.nreq_in := rfl

/-- go_snf_post_process does not change the populated count. -/
theorem go_snf_post_process_nreq_out (E : PcapEval) (v : RecvReqMany) :
    (go_snf_post_process E v).nreq_out = v.nreq_out := rfl

/-- go_snf_post_process does not change the descriptors. -/
theorem go_snf_post_process_reqs (E : PcapEval) (v : RecvReqMany) :
    (go_snf_post_process E v).reqs = v.reqs := rfl

/-- go_snf_post_process does not change the installed program. -/
theorem go_snf_post_process_fp (E : PcapEval) (v : RecvReqMany) :
    (go_snf_post_process E v).fp = v.fp := rfl

/-- Claim C4: for every batch and every prior state, after a return
operation completes the borrowed-byte total is 0 whether the underlying
transport release succeeded or failed: go_snf_return_many always resets
total_len to 0, and after ring_reader_return_many the borrowed total
ring_reader_data_qlen is 0 because nreq_out is reset to 0. -/
theorem claim_C4 :
    (∀ (σ : Type) (T : Transport σ) (s : σ) (v : RecvReqMany),
       (go_snf_return_many T s v).vec.total_len = 0) ∧
    (∀ (σ : Type) (T : Transport σ) (s : σ) (r : RingReader),
       ring_reader_data_qlen ((ring_reader_return_many T s r).reader) = 0) := by
  constructor
  · intro σ T s v
    unfold go_snf_return_many
    split <;> rfl
  · intro σ T s r
    unfold ring_reader_return_many
    split <;> rfl

/-- Claim C7: for a reader with capacity exactly 1, the return operation
makes no transport call (empty trace, transport state unchanged) and
returns success; correspondingly the capacity-1 receive path of
receiver.h issues no return call at all. -/
theorem claim_C7 :
    (∀ (σ : Type) (T : Transport σ) (s : σ) (r : RingReader), r.nreq_in = 1 →
       ring_reader_return_many T s r = ⟨0, s, { r with nreq_out := 0 }, []⟩) ∧
    (∀ (σ : Type) (E : PcapEval) (T : Transport σ) (s : σ) (t : Int)
       (v : RecvReqMany), v.nreq_in = 1 →
       noReturnEvents (go_snf_recv_many E T s t v).trace = true) := by
  constructor
  · intro σ T s r h
    unfold ring_reader_return_many
    rw [if_neg (by omega)]
  · intro σ E T s t v h
    unfold go_snf_recv_many
    rw [if_pos h]
    split <;> rfl

def c7T : Transport Unit :=
  ⟨fun _ _ => ⟨0, ⟨[1], 64, 0, 0, 64, 0⟩, ()⟩,
   fun _ _ _ => ⟨0, [], ()⟩,
   fun _ _ => ⟨7, ()⟩⟩

def c7r : RingReader := ⟨100, 3, 1, [zeroReq]⟩

def c7v : RecvReqMany := ⟨[zeroReq], [0], 1, 0, 0, ⟨0, none⟩⟩

/-- Witness for claim C7 at a concrete capacity-1 reader and batch. -/
theorem claim_C7_witness :
    ring_reader_return_many c7T () c7r = ⟨0, (), ⟨100, 0, 1, [zeroReq]⟩, []⟩ ∧
    noReturnEvents (go_snf_recv_many evalAccept c7T () 100 c7v).trace = true :=
  ⟨claim_C7.1 Unit c7T () c7r (by decide),
   claim_C7.2 Unit evalAccept c7T () 100 c7v (by decide)⟩

def c3T : Transport Unit :=
  ⟨fun _ _ => ⟨5, zeroReq, ()⟩, fun _ _ _ => ⟨5, [], ()⟩, fun _ _ => ⟨5, ()⟩⟩

def c3r : RingReader := ⟨0, 1, 2, [⟨[], 0, 0, 0, 100, 0⟩, zeroReq]⟩

def c3v : RecvReqMany := ⟨[], [], 4, 0, 360, ⟨0, none⟩⟩

/-- Counterexample to claim C3 as stated: with capacity 2 and a failing
transport, ring_reader_return_many issues exactly one release request,
carrying the computed amount 100, and never a release-everything
request; the error is simply returned. -/
theorem claim_C3_counterexample :
    (ring_reader_return_many c3T () c3r).rc = 5 ∧
    (ring_reader_return_many c3T () c3r).trace = [RingEvent.returnMany 100] ∧
    RingEvent.returnMany U32ALL ∉ (ring_reader_return_many c3T () c3r).trace := by
  refine ⟨by decide, by decide, by decide⟩

/-- Claim C3 amended: only the receiver.h variant retries with the
release-everything sentinel after a failed computed-amount release and
returns the second call's status; the ring_reader.h variant issues a
single release request with the computed amount and returns that call's
status with no fallback. -/
theorem claim_C3_amended :
    (∀ (σ : Type) (T : Transport σ) (s : σ) (v : RecvReqMany),
       (T.ring_return_many s v.total_len).rc ≠ 0 →
       (go_snf_return_many T s v).trace =
           [RingEvent.returnMany v.total_len, RingEvent.returnMany U32ALL] ∧
         (go_snf_return_many T s v).rc =
           (T.ring_return_many (T.ring_return_many s v.total_len).st U32ALL).rc) ∧
    (∀ (σ : Type) (T : Transport σ) (s : σ) (r : RingReader), 1 < r.nreq_in →
       (ring_reader_return_many T s r).trace =
           [RingEvent.returnMany (ring_reader_data_qlen r)] ∧
         (ring_reader_return_many T s r).rc =
           (T.ring_return_many s (ring_reader_data_qlen r)).rc) := by
  constructor
  · intro σ T s v h
    unfold go_snf_return_many
    rw [if_neg h]
    exact ⟨rfl, rfl⟩
  · intro σ T s r h
    unfold ring_reader_return_many
    rw [if_pos h]
    exact ⟨rfl, rfl⟩

/-- Witness for the amended claim C3 at concrete failing transports. -/
theorem claim_C3_witness :
    (go_snf_return_many c3T () c3v).trace =
        [RingEvent.returnMany 360, RingEvent.returnMany U32ALL] ∧
      (go_snf_return_many c3T () c3v).rc = 5 ∧
      (ring_reader_return_many c3T () c3r).trace = [RingEvent.returnMany 100] := by
  refine ⟨(claim_C3_amended.1 Unit c3T () c3v (by decide)).1, ?_,
    (claim_C3_amended.2 Unit c3T () c3r (by decide)).1⟩
  exact ((claim_C3_amended.1 Unit c3T () c3v (by decide)).2).trans (by decide)

/-- Claim C2: with outstanding packets (Loaded state) and a failing
return step, ring_reader_recharge returns the return error as is and its
trace holds no receive call; the receiver.h batch path likewise returns
the return error without receiving when the return step fails. -/
theorem claim_C2 :
    (∀ (σ : Type) (T : Transport σ) (s : σ) (r : RingReader),
       0 < r.nreq_out → (ring_reader_return_many T s r).rc ≠ 0 →
       ring_reader_recharge T s r = ring_reader_return_many T s r ∧
         noRecvEvents (ring_reader_recharge T s r).trace = true) ∧
    (∀ (σ : Type) (E : PcapEval) (T : Transport σ) (s : σ) (t : Int)
       (v : RecvReqMany), v.nreq_in ≠ 1 → (go_snf_return_many T s v).rc ≠ 0 →
       (go_snf_recv_many E T s t v).rc = (go_snf_return_many T s v).rc ∧
         noRecvEvents (go_snf_recv_many E T s t v).trace = true) := by
  constructor
  · intro σ T s r h0 hrc
    have he : ring_reader_recharge T s r = ring_reader_return_many T s r := by
      unfold ring_reader_recharge
      rw [if_pos h0, if_pos hrc]
    refine ⟨he, ?_⟩
    rw [he]
    unfold ring_reader_return_many
    split <;> rfl
  · intro σ E T s t v h1 hrc
    unfold go_snf_recv_many
    rw [if_neg h1, if_neg hrc]
    refine ⟨rfl, ?_⟩
    show noRecvEvents (go_snf_return_many T s v).trace = true
    unfold go_snf_return_many
    split <;> rfl

def c2T : Transport Unit :=
  ⟨fun _ _ => ⟨0, zeroReq, ()⟩, fun _ _ _ => ⟨0, [zeroReq], ()⟩,
   fun _ _ => ⟨9, ()⟩⟩

def c2r : RingReader := ⟨0, 1, 2, [⟨[], 0, 0, 0, 50, 0⟩, zeroReq]⟩

def c2v : RecvReqMany := ⟨[], [], 3, 0, 7, ⟨0, none⟩⟩

/-- Witness for claim C2 at a concrete Loaded reader whose return step
fails with status 9. -/
theorem claim_C2_witness :
    ring_reader_recharge c2T () c2r = ring_reader_return_many c2T () c2r ∧
      noRecvEvents (ring_reader_recharge c2T () c2r).trace = true ∧
      (go_snf_recv_many evalAccept c2T () 0 c2v).rc = 9 := by
  refine ⟨(claim_C2.1 Unit c2T () c2r (by decide) (by decide)).1,
    (claim_C2.1 Unit c2T () c2r (by decide) (by decide)).2, ?_⟩
  exact ((claim_C2.2 Unit evalAccept c2T () 0 c2v (by decide) (by decide)).1).trans
    (by decide)

/-- go_snf_return_many resets total_len to 0 on every path. -/
theorem go_snf_return_many_total_len (T : Transport σ) (s : σ) (v : RecvReqMany) :
    (go_snf_return_many T s v).vec.total_len = 0 := by
  unfold go_snf_return_many
  split <;> rfl

/-- Closed form of the borrowed-byte total of go_snf_post_process. -/
theorem go_snf_post_process_total_len (E : PcapEval) (v : RecvReqMany) :
    (go_snf_post_process E v).total_len =
      u32_accum v.total_len (v.reqs.take v.nreq_out) := rfl

/-- When the accumulator starts at 0, go_snf_post_process leaves the sum
of the populated data lengths reduced modulo 2^32. -/
theorem go_snf_post_process_spec (E : PcapEval) (v : RecvReqMany)
    (h : v.total_len = 0) :
    (go_snf_post_process E v).total_len =
      sumLenData ((go_snf_post_process E v).reqs.take
        (go_snf_post_process E v).nreq_out) % U32MOD := by
  rw [go_snf_post_process_total_len, go_snf_post_process_reqs,
    go_snf_post_process_nreq_out, h, u32_accum_eq _ 0 (by decide), Nat.zero_add]

def c1T : Transport Unit :=
  ⟨fun _ _ => ⟨0, zeroReq, ()⟩,
   fun _ _ _ => ⟨0, [⟨[], 0, 0, 0, 2147483648, 0⟩, ⟨[], 0, 0, 0, 2147483648, 0⟩], ()⟩,
   fun _ _ => ⟨0, ()⟩⟩

def c1v : RecvReqMany := ⟨[zeroReq, zeroReq], [0, 0], 2, 0, 0, ⟨0, none⟩⟩

def c1r : RingReader :=
  ⟨0, 2, 2, [⟨[], 0, 0, 0, 2147483648, 0⟩, ⟨[], 0, 0, 0, 2147483648, 0⟩]⟩

/-- Counterexample to claim C1 as stated: a successful capacity-2 receive
that populates two descriptors whose data lengths are 2^31 each leaves a
borrowed-byte total of 0, not the exact sum 2^32, because total_len and
data_qlen are uint32_t accumulators that wrap modulo 2^32. -/
theorem claim_C1_counterexample :
    (go_snf_recv_many evalAccept c1T () 0 c1v).rc = 0 ∧
    (go_snf_recv_many evalAccept c1T () 0 c1v).vec.nreq_out = 2 ∧
    sumLenData ((go_snf_recv_many evalAccept c1T () 0 c1v).vec.reqs.take 2) =
      4294967296 ∧
    (go_snf_recv_many evalAccept c1T () 0 c1v).vec.total_len = 0 ∧
    ring_reader_data_qlen c1r = 0 := by
  refine ⟨by decide, by decide, by decide, by decide, by decide⟩

/-- Claim C1 amended: after a successful receive on a batch with capacity
greater than 1, the borrowed-byte total equals the sum of length_data
over the populated descriptors reduced modulo 2^32 (and hence the exact
sum whenever it is below 2^32), with every populated descriptor counted
regardless of the filter outcome; ring_reader_data_qlen likewise equals
the populated length_data sum reduced modulo 2^32. -/
theorem claim_C1_amended :
    (∀ (σ : Type) (E : PcapEval) (T : Transport σ) (s : σ) (t : Int)
       (v : RecvReqMany), 1 < v.nreq_in → (go_snf_recv_many E T s t v).rc = 0 →
       (go_snf_recv_many E T s t v).vec.total_len =
         sumLenData ((go_snf_recv_many E T s t v).vec.reqs.take
           (go_snf_recv_many E T s t v).vec.nreq_out) % U32MOD) ∧
    (∀ r : RingReader,
       ring_reader_data_qlen r =
         sumLenData (r.req_vector.take r.nreq_out) % U32MOD) := by
  constructor
  · intro σ E T s t v hcap
    unfold go_snf_recv_many
    rw [if_neg (by omega : ¬ v.nreq_in = 1)]
    by_cases hrm : (go_snf_return_many T s v).rc = 0
    · rw [if_pos hrm]
      by_cases hrr :
          (T.ring_recv_many (go_snf_return_many T s v).ring t v.nreq_in).rc = 0
      · rw [if_pos hrr]
        intro _
        exact go_snf_post_process_spec E _ (go_snf_return_many_total_len T s v)
      · rw [if_neg hrr]
        intro h0
        exact absurd h0 hrr
    · rw [if_neg hrm]
      intro h0
      exact absurd h0 hrm
  · intro r
    unfold ring_reader_data_qlen
    rw [u32_accum_eq _ 0 (by decide), Nat.zero_add]

def c1wT : Transport Unit :=
  ⟨fun _ _ => ⟨0, zeroReq, ()⟩,
   fun _ _ _ => ⟨0, [⟨[], 0, 0, 0, 100, 0⟩, ⟨[], 0, 0, 0, 0, 0⟩,
     ⟨[], 0, 0, 0, 50, 0⟩], ()⟩,
   fun _ _ => ⟨0, ()⟩⟩

def c1wv : RecvReqMany :=
  ⟨[zeroReq, zeroReq, zeroReq, zeroReq], [0, 0, 0, 0], 4, 0, 0, ⟨0, none⟩⟩

def c1wr : RingReader :=
  ⟨0, 2, 4, [⟨[], 0, 0, 0, 100, 0⟩, ⟨[], 0, 0, 0, 50, 0⟩, zeroReq, zeroReq]⟩

/-- Witness for the amended claim C1: a successful capacity-4 receive of
three descriptors with data lengths 100, 0 and 50 leaves 150 borrowed
bytes, matching the modular sum. -/
theorem claim_C1_witness :
    (go_snf_recv_many evalAccept c1wT () 0 c1wv).rc = 0 ∧
    (go_snf_recv_many evalAccept c1wT () 0 c1wv).vec.total_len =
      sumLenData ((go_snf_recv_many evalAccept c1wT () 0 c1wv).vec.reqs.take
        (go_snf_recv_many evalAccept c1wT () 0 c1wv).vec.nreq_out) % U32MOD ∧
    (go_snf_recv_many evalAccept c1wT () 0 c1wv).vec.total_len = 150 ∧
    ring_reader_data_qlen c1wr =
      sumLenData (c1wr.req_vector.take c1wr.nreq_out) % U32MOD := by
  refine ⟨by decide,
    claim_C1_amended.1 Unit evalAccept c1wT () 0 c1wv (by decide) (by decide),
    by decide, claim_C1_amended.2 c1wr⟩

/-- Folding a constant-valued function over a nonempty range yields that
constant. -/
theorem foldl_const_range {α : Type} (x y : α) (n : Nat) (hn : 0 < n) :
    (List.range n).foldl (fun _ _ => y) x = y := by
  obtain ⟨m, rfl⟩ : ∃ m, n = m + 1 := ⟨n - 1, by omega⟩
  rw [List.range_succ, List.foldl_append]
  rfl

/-- Claim C9: go_bpf_test returns the evaluator's result (the value of
the last loop iteration) whenever count is at least 1, and returns the
uninitialized res local (modelled as none) whenever count is at most 0. -/
theorem claim_C9 :
    ∀ (E : PcapEval) (fp : BpfProgram) (hdr : PcapPkthdr) (pkt : Packet)
      (count : Int),
      (1 ≤ count → go_bpf_test E fp hdr pkt count = some (E fp hdr pkt)) ∧
      (count ≤ 0 → go_bpf_test E fp hdr pkt count = none) := by
  intro E fp hdr pkt count
  constructor
  · intro h
    unfold go_bpf_test
    exact foldl_const_range none (some (E fp hdr pkt)) count.toNat (by omega)
  · intro h
    unfold go_bpf_test
    rw [show count.toNat = 0 by omega]
    rfl

/-- Witness for claim C9 at count 3 and count -2. -/
theorem claim_C9_witness :
    go_bpf_test evalAccept ⟨0, none⟩ ⟨0, 0, 0, 0⟩ [] 3 = some 1 ∧
    go_bpf_test evalAccept ⟨0, none⟩ ⟨0, 0, 0, 0⟩ [] (-2) = none :=
  ⟨(claim_C9 evalAccept ⟨0, none⟩ ⟨0, 0, 0, 0⟩ [] 3).1 (by decide),
   (claim_C9 evalAccept ⟨0, none⟩ ⟨0, 0, 0, 0⟩ [] (-2)).2 (by decide)⟩

/-- An evaluator oracle that rejects every packet. -/
def evalReject : PcapEval := fun _ _ _ => 0

def c5v : RecvReqMany := ⟨[⟨[7], 64, 0, 0, 64, 0⟩], [0], 1, 1, 0, ⟨0, none⟩⟩

def c5v2 : RecvReqMany :=
  ⟨[⟨[7], 64, 0, 0, 64, 0⟩], [0], 1, 1, 0, ⟨1, some [⟨6, 0, 0, 0⟩]⟩⟩

/-- Counterexample to claim C5 as stated: go_snf_post_process records the
evaluator's result in the accept-flag slot only when a nonempty program
is installed (second conjunct, flag becomes 1 = accepted); with a
zero-instruction program it leaves the populated descriptor's flag slot
untouched, so in a fresh batch the flag stays 0 — recorded as rejected
under that convention — even though the evaluator accepts everything. -/
theorem claim_C5_counterexample :
    (go_snf_post_process evalAccept c5v2).bpf_result = [1] ∧
    (go_snf_post_process evalAccept c5v).bpf_result = [0] ∧
    ¬ (go_snf_post_process evalAccept c5v).bpf_result.getD 0 0 ≠ 0 := by
  refine ⟨by decide, by decide, by decide⟩

/-- Claim C5 amended: a zero-instruction program accepts unconditionally
in ring_recv — the call returns exactly the transport's status and never
the filter-reject status — while go_snf_post_process skips evaluation for
a zero-instruction program and leaves every accept-flag slot unchanged
instead of setting it to accepted. -/
theorem claim_C5_amended :
    (∀ (σ : Type) (E : PcapEval) (T : Transport σ) (s : σ) (t : Int)
       (req0 : SnfRecvReq) (fp : BpfProgram), fp.bf_len = 0 →
       (ring_recv E T s t req0 fp).rc = (T.ring_recv s t).rc) ∧
    (∀ (E : PcapEval) (v : RecvReqMany), v.fp.bf_len = 0 →
       v.nreq_out ≤ v.reqs.length →
       (go_snf_post_process E v).bpf_result = v.bpf_result) := by
  constructor
  · intro σ E T s t req0 fp h
    unfold ring_recv
    by_cases hrc : (T.ring_recv s t).rc ≠ 0
    · rw [if_pos hrc]
    · rw [if_neg hrc, if_pos h]
      exact (not_ne_iff.mp hrc).symm
  · intro E v h hle
    unfold go_snf_post_process
    dsimp only
    rw [zipWith_keep_right (bpf_slot E v.fp) (fun a b => by simp [bpf_slot, h])
      (v.reqs.take v.nreq_out) (v.bpf_result.take v.nreq_out)
      (by rw [List.length_take, List.length_take, Nat.min_eq_left hle]
          exact Nat.min_le_left _ _)]
    exact List.take_append_drop _ _

def c5T : Transport Unit :=
  ⟨fun _ _ => ⟨0, ⟨[7], 64, 0, 0, 64, 0⟩, ()⟩, fun _ _ _ => ⟨0, [], ()⟩,
   fun _ _ => ⟨0, ()⟩⟩

/-- Witness for the amended claim C5: with a zero-instruction program and
an evaluator that rejects everything, ring_recv still accepts the packet
(status 0, not the filter-reject status) and post-processing leaves the
flag slots unchanged. -/
theorem claim_C5_witness :
    (ring_recv evalReject c5T () 100 zeroReq ⟨0, none⟩).rc = 0 ∧
    (go_snf_post_process evalReject c5v).bpf_result = [0] :=
  ⟨(claim_C5_amended.1 Unit evalReject c5T () 100 zeroReq ⟨0, none⟩ rfl).trans
    (by decide),
   claim_C5_amended.2 evalReject c5v rfl (by decide)⟩

/-- Claim C6: the receive operations' populated-count postcondition.  For
capacity 1 both variants delegate to the single-descriptor transport
receive, return its status, and set the populated count to 1 exactly on
success.  For larger capacity the ring_reader variant returns the batch
receive's status, zeroes the populated count on any error, and on success
sets it to the number actually filled (bounded by the capacity whenever
the transport respects it); the receiver.h variant zeroes the populated
count whenever it returns an error and sets it to the number filled on
success. -/
theorem claim_C6 :
    (∀ (σ : Type) (T : Transport σ) (s : σ) (r : RingReader), r.nreq_in = 1 →
       (ring_reader_recv_many T s r).rc = (T.ring_recv s r.timeout_ms).rc ∧
       (ring_reader_recv_many T s r).reader.nreq_out =
         if (T.ring_recv s r.timeout_ms).rc = 0 then 1 else 0) ∧
    (∀ (σ : Type) (T : Transport σ) (s : σ) (r : RingReader), 1 < r.nreq_in →
       (ring_reader_recv_many T s r).rc =
           (T.ring_recv_many s r.timeout_ms r.nreq_in).rc ∧
         ((T.ring_recv_many s r.timeout_ms r.nreq_in).rc ≠ 0 →
           (ring_reader_recv_many T s r).reader.nreq_out = 0) ∧
         ((T.ring_recv_many s r.timeout_ms r.nreq_in).rc = 0 →
           (ring_reader_recv_many T s r).reader.nreq_out =
             (T.ring_recv_many s r.timeout_ms r.nreq_in).filled.length) ∧
         ((T.ring_recv_many s r.timeout_ms r.nreq_in).filled.length ≤ r.nreq_in →
           (ring_reader_recv_many T s r).reader.nreq_out ≤ r.nreq_in)) ∧
    (∀ (σ : Type) (E : PcapEval) (T : Transport σ) (s : σ) (t : Int)
       (v : RecvReqMany), v.nreq_in = 1 →
       (go_snf_recv_many E T s t v).rc = (T.ring_recv s t).rc ∧
       (go_snf_recv_many E T s t v).vec.nreq_out =
         if (T.ring_recv s t).rc = 0 then 1 else 0) ∧
    (∀ (σ : Type) (E : PcapEval) (T : Transport σ) (s : σ) (t : Int)
       (v : RecvReqMany), v.nreq_in ≠ 1 →
       ((go_snf_recv_many E T s t v).rc ≠ 0 →
         (go_snf_recv_many E T s t v).vec.nreq_out = 0) ∧
       ((go_snf_recv_many E T s t v).rc = 0 →
         (go_snf_recv_many E T s t v).vec.nreq_out =
           (T.ring_recv_many (go_snf_return_many T s v).ring t
             v.nreq_in).filled.length)) := by
  refine ⟨?_, ?_, ?_, ?_⟩
  · intro σ T s r h
    unfold ring_reader_recv_many
    rw [if_pos h]
    by_cases hrc : (T.ring_recv s r.timeout_ms).rc = 0
    · rw [if_pos hrc]
      exact ⟨hrc.symm, by rw [if_pos hrc]⟩
    · rw [if_neg hrc]
      exact ⟨rfl, by rw [if_neg hrc]⟩
  · intro σ T s r h
    unfold ring_reader_recv_many
    rw [if_neg (by omega : ¬ r.nreq_in = 1)]
    by_cases hrc : (T.ring_recv_many s r.timeout_ms r.nreq_in).rc = 0
    · rw [if_pos hrc]
      exact ⟨hrc.symm, fun hne => absurd hrc hne, fun _ => rfl, fun hle => hle⟩
    · rw [if_neg hrc]
      exact ⟨rfl, fun _ => rfl, fun h0 => absurd h0 hrc, fun _ => Nat.zero_le _⟩
  · intro σ E T s t v h
    unfold go_snf_recv_many
    rw [if_pos h]
    by_cases hrc : (T.ring_recv s t).rc = 0
    · rw [if_pos hrc]
      exact ⟨hrc.symm, by rw [if_pos hrc]; rfl⟩
    · rw [if_neg hrc]
      exact ⟨rfl, by rw [if_neg hrc]; rfl⟩
  · intro σ E T s t v h
    unfold go_snf_recv_many
    rw [if_neg h]
    by_cases hrm : (go_snf_return_many T s v).rc = 0
    · rw [if_pos hrm]
      by_cases hrr :
          (T.ring_recv_many (go_snf_return_many T s v).ring t v.nreq_in).rc = 0
      · rw [if_pos hrr]
        exact ⟨fun hne => absurd rfl hne, fun _ => rfl⟩
      · rw [if_neg hrr]
        exact ⟨fun _ => rfl, fun h0 => absurd h0 hrr⟩
    · rw [if_neg hrm]
      exact ⟨fun _ => rfl, fun h0 => absurd h0 hrm⟩

def c6T : Transport Unit :=
  ⟨fun _ _ => ⟨0, ⟨[], 60, 0, 0, 64, 0⟩, ()⟩,
   fun _ _ _ => ⟨0, [⟨[], 60, 0, 0, 64, 0⟩, ⟨[], 60, 0, 0, 70, 0⟩], ()⟩,
   fun _ _ => ⟨0, ()⟩⟩

def c6Tbad : Transport Unit :=
  ⟨fun _ _ => ⟨11, zeroReq, ()⟩, fun _ _ _ => ⟨11, [], ()⟩, fun _ _ => ⟨0, ()⟩⟩

def c6r1 : RingReader := ⟨0, 0, 1, [zeroReq]⟩

def c6r3 : RingReader := ⟨0, 0, 3, [zeroReq, zeroReq, zeroReq]⟩

def c6v1 : RecvReqMany := ⟨[zeroReq], [0], 1, 0, 0, ⟨0, none⟩⟩

def c6v3 : RecvReqMany :=
  ⟨[zeroReq, zeroReq, zeroReq], [0, 0, 0], 3, 0, 0, ⟨0, none⟩⟩

/-- Witness for claim C6 at concrete succeeding and failing transports,
with capacity 1 and capacity 3, for both implementations. -/
theorem claim_C6_witness :
    (ring_reader_recv_many c6T () c6r1).reader.nreq_out = 1 ∧
    (ring_reader_recv_many c6Tbad () c6r1).reader.nreq_out = 0 ∧
    (ring_reader_recv_many c6T () c6r3).reader.nreq_out = 2 ∧
    (ring_reader_recv_many c6Tbad () c6r3).reader.nreq_out = 0 ∧
    (ring_reader_recv_many c6Tbad () c6r3).rc = 11 ∧
    (go_snf_recv_many evalAccept c6T () 0 c6v1).vec.nreq_out = 1 ∧
    (go_snf_recv_many evalAccept c6Tbad () 0 c6v1).vec.nreq_out = 0 ∧
    (go_snf_recv_many evalAccept c6T () 0 c6v3).vec.nreq_out = 2 := by
  refine ⟨((claim_C6.1 Unit c6T () c6r1 rfl).2).trans (by decide),
    ((claim_C6.1 Unit c6Tbad () c6r1 rfl).2).trans (by decide),
    ((claim_C6.2.1 Unit c6T () c6r3 (by decide)).2.2.1 (by decide)).trans
      (by decide),
    (claim_C6.2.1 Unit c6Tbad () c6r3 (by decide)).2.1 (by decide),
    ((claim_C6.2.1 Unit c6Tbad () c6r3 (by decide)).1).trans (by decide),
    ((claim_C6.2.2.1 Unit evalAccept c6T () 0 c6v1 rfl).2).trans (by decide),
    ((claim_C6.2.2.1 Unit evalAccept c6Tbad () 0 c6v1 rfl).2).trans (by decide),
    ((claim_C6.2.2.2 Unit evalAccept c6T () 0 c6v3 (by decide)).2
      (by decide)).trans (by decide)⟩

/-- Every allocation attempt either returns the fresh identifier and
pushes it onto the live list, or fails and leaves the live list as it
was. -/
theorem alloc_step_cases (st : AllocState) :
    ((alloc_step st).ptr = some st.next ∧
      (alloc_step st).st.live = st.next :: st.live) ∨
    ((alloc_step st).ptr = none ∧ (alloc_step st).st.live = st.live) := by
  obtain ⟨script, live, next⟩ := st
  cases script with
  | nil => exact Or.inl ⟨rfl, rfl⟩
  | cons b rest =>
    cases b with
    | false => exact Or.inr ⟨rfl, rfl⟩
    | true => exact Or.inl ⟨rfl, rfl⟩

/-- ENOMEM is a nonzero status. -/
theorem ENOMEM_ne_zero : ENOMEM ≠ 0 := by decide

/-- A successful allocation pushes its identifier onto the live list. -/
theorem alloc_step_some_live (st : AllocState) (p : Nat)
    (h : (alloc_step st).ptr = some p) :
    (alloc_step st).st.live = p :: st.live := by
  rcases alloc_step_cases st with ⟨ha, hl⟩ | ⟨ha, hl⟩
  · rw [hl, Option.some.inj (ha.symm.trans h)]
  · rw [ha] at h
    exact Option.noConfusion h

/-- A failed allocation leaves the live list unchanged. -/
theorem alloc_step_none_live (st : AllocState)
    (h : (alloc_step st).ptr = none) :
    (alloc_step st).st.live = st.live := by
  rcases alloc_step_cases st with ⟨ha, hl⟩ | ⟨ha, hl⟩
  · rw [ha] at h
    exact Option.noConfusion h
  · exact hl

/-- Claim C8: batch construction and filter-program construction are
atomic under allocation failure: on any allocation failure everything
already allocated by the call is freed again (the heap's live set is
exactly what it was), no object is handed out, and the status is ENOMEM;
on success the batch has the requested capacity with populated count and
borrowed total 0, and the program holds the instruction count and a copy
of the instructions. -/
theorem claim_C8 :
    (∀ (st : AllocState) (n : Nat),
       ((go_snf_recv_req_many_create st n).rc ≠ 0 →
         (go_snf_recv_req_many_create st n).rc = ENOMEM ∧
         (go_snf_recv_req_many_create st n).out = none ∧
         (go_snf_recv_req_many_create st n).st.live = st.live) ∧
       ((go_snf_recv_req_many_create st n).rc = 0 →
         ∃ m, (go_snf_recv_req_many_create st n).out = some m ∧
           m.vec.nreq_in = n ∧ m.vec.nreq_out = 0 ∧ m.vec.total_len = 0)) ∧
    (∀ (st : AllocState) (insns : List BpfInsn),
       ((go_bpf_make st insns).rc ≠ 0 →
         (go_bpf_make st insns).rc = ENOMEM ∧
         (go_bpf_make st insns).out = none ∧
         (go_bpf_make st insns).st.live = st.live) ∧
       ((go_bpf_make st insns).rc = 0 →
         ∃ p, (go_bpf_make st insns).out = some p ∧
           p.fp = ⟨insns.length, some insns⟩)) := by
  constructor
  · intro st n
    unfold go_snf_recv_req_many_create
    split
    next heq =>
      exact ⟨fun _ => ⟨rfl, rfl, alloc_step_none_live st heq⟩,
        fun h0 => absurd h0 ENOMEM_ne_zero⟩
    next hdr heq =>
      split
      next heq2 =>
        refine ⟨fun _ => ⟨rfl, rfl, ?_⟩, fun h0 => absurd h0 ENOMEM_ne_zero⟩
        show ((alloc_step (alloc_step st).st).st.live.erase hdr) = st.live
        rw [alloc_step_none_live _ heq2, alloc_step_some_live st hdr heq,
          List.erase_cons_head]
      next rid heq2 =>
        split
        next heq3 =>
          refine ⟨fun _ => ⟨rfl, rfl, ?_⟩, fun h0 => absurd h0 ENOMEM_ne_zero⟩
          show (((alloc_step (alloc_step (alloc_step st).st).st).st.live.erase
            rid).erase hdr) = st.live
          rw [alloc_step_none_live _ heq3, alloc_step_some_live _ rid heq2,
            List.erase_cons_head, alloc_step_some_live st hdr heq,
            List.erase_cons_head]
        next bid heq3 =>
          exact ⟨fun hne => absurd rfl hne, fun _ => ⟨_, rfl, rfl, rfl, rfl⟩⟩
  · intro st insns
    unfold go_bpf_make
    split
    next heq =>
      exact ⟨fun _ => ⟨rfl, rfl, alloc_step_none_live st heq⟩,
        fun h0 => absurd h0 ENOMEM_ne_zero⟩
    next fpid heq =>
      split
      next heq2 =>
        refine ⟨fun _ => ⟨rfl, rfl, ?_⟩, fun h0 => absurd h0 ENOMEM_ne_zero⟩
        show ((alloc_step (alloc_step st).st).st.live.erase fpid) = st.live
        rw [alloc_step_none_live _ heq2, alloc_step_some_live st fpid heq,
          List.erase_cons_head]
      next insid heq2 =>
        exact ⟨fun hne => absurd rfl hne, fun _ => ⟨_, rfl, rfl⟩⟩

def c8heapFail : AllocState := ⟨[true, false], [7], 0⟩

def c8heapOk : AllocState := ⟨[], [], 0⟩

/-- Witness for claim C8: with a heap whose second allocation fails, the
batch constructor reports ENOMEM, hands out nothing and leaves exactly
the pre-existing allocation live; with a succeeding heap the constructed
batch has capacity 5 and zero counters, and go_bpf_make copies one
instruction. -/
theorem claim_C8_witness :
    (go_snf_recv_req_many_create c8heapFail 5).rc = ENOMEM ∧
      (go_snf_recv_req_many_create c8heapFail 5).out = none ∧
      (go_snf_recv_req_many_create c8heapFail 5).st.live = [7] ∧
      (go_snf_recv_req_many_create c8heapOk 5).out ≠ none ∧
      (go_bpf_make c8heapFail [⟨6, 0, 0, 0⟩]).rc = ENOMEM ∧
      (go_bpf_make c8heapFail [⟨6, 0, 0, 0⟩]).st.live = [7] := by
  obtain ⟨ha, hb, hc⟩ := (claim_C8.1 c8heapFail 5).1 (by decide)
  obtain ⟨m, hm, -, -, -⟩ := (claim_C8.1 c8heapOk 5).2 (by decide)
  obtain ⟨hd, -, he⟩ := (claim_C8.2 c8heapFail [⟨6, 0, 0, 0⟩]).1 (by decide)
  exact ⟨ha, hb, hc, by rw [hm]; exact Option.some_ne_none m, hd, he⟩

/-- Behaviour of one go_snf_recv_many cycle on a capacity-1 batch: it
performs exactly one single-descriptor receive and no return call; on
success the populated prefix is the received descriptor and its
length_data is accumulated modulo 2^32; on failure nothing is populated
and the total is unchanged. -/
theorem go_snf_recv_many_cap1 (E : PcapEval) (T : Transport σ) (s : σ)
    (t : Int) (v : RecvReqMany) (h : v.nreq_in = 1) :
    (go_snf_recv_many E T s t v).ring = (T.ring_recv s t).st ∧
    (go_snf_recv_many E T s t v).trace = [RingEvent.recvOne] ∧
    (go_snf_recv_many E T s t v).vec.nreq_in = 1 ∧
    ((T.ring_recv s t).rc = 0 →
      (go_snf_recv_many E T s t v).vec.reqs.take
          (go_snf_recv_many E T s t v).vec.nreq_out = [(T.ring_recv s t).req] ∧
      (go_snf_recv_many E T s t v).vec.total_len =
        (v.total_len + (T.ring_recv s t).req.length_data) % U32MOD) ∧
    ((T.ring_recv s t).rc ≠ 0 →
      (go_snf_recv_many E T s t v).vec.reqs.take
          (go_snf_recv_many E T s t v).vec.nreq_out = [] ∧
      (go_snf_recv_many E T s t v).vec.total_len = v.total_len) := by
  unfold go_snf_recv_many
  rw [if_pos h]
  by_cases hrc : (T.ring_recv s t).rc = 0
  · rw [if_pos hrc]
    exact ⟨rfl, rfl, h, fun _ => ⟨rfl, rfl⟩, fun hne => absurd hrc hne⟩
  · rw [if_neg hrc]
    exact ⟨rfl, rfl, h, fun h0 => absurd h0 hrc, fun _ => ⟨rfl, rfl⟩⟩

/-- A trace concatenation is return-free exactly when both halves are. -/
theorem noReturnEvents_append (a b : List RingEvent) :
    noReturnEvents (a ++ b) = (noReturnEvents a && noReturnEvents b) := by
  simp [noReturnEvents, List.all_append]

/-- sumLenData distributes over concatenation. -/
theorem sumLenData_append (a b : List SnfRecvReq) :
    sumLenData (a ++ b) = sumLenData a + sumLenData b := by
  simp [sumLenData]

/-- Iterating go_snf_recv_many on a capacity-1 batch never issues a
return call and accumulates the length_data of every successfully
received packet modulo 2^32, with the total staying below 2^32 and the
capacity staying 1. -/
theorem go_snf_iterate_cap1 (E : PcapEval) (T : Transport σ) (t : Int) :
    ∀ (n : Nat) (s : σ) (v : RecvReqMany), v.nreq_in = 1 →
      v.total_len < U32MOD →
      noReturnEvents (go_snf_iterate E T t n s v).trace = true ∧
      (go_snf_iterate E T t n s v).vec.total_len =
        (v.total_len + sumLenData (go_snf_iterate E T t n s v).recvd) % U32MOD ∧
      (go_snf_iterate E T t n s v).vec.total_len < U32MOD ∧
      (go_snf_iterate E T t n s v).vec.nreq_in = 1 := by
  intro n
  induction n with
  | zero =>
    intro s v h hlt
    refine ⟨rfl, ?_, hlt, h⟩
    show v.total_len = (v.total_len + sumLenData []) % U32MOD
    simp [sumLenData, Nat.mod_eq_of_lt hlt]
  | succ m ih =>
    intro s v h hlt
    obtain ⟨hring, htr, hin, hsucc, hfail⟩ := go_snf_recv_many_cap1 E T s t v h
    simp only [go_snf_iterate]
    by_cases hrc : (T.ring_recv s t).rc = 0
    · obtain ⟨htake, htot⟩ := hsucc hrc
      have hlt1 : (go_snf_recv_many E T s t v).vec.total_len < U32MOD := by
        rw [htot]; exact Nat.mod_lt _ (by decide)
      obtain ⟨ih1, ih2, ih3, ih4⟩ := ih (go_snf_recv_many E T s t v).ring
        (go_snf_recv_many E T s t v).vec hin hlt1
      refine ⟨?_, ?_, ih3, ih4⟩
      · rw [noReturnEvents_append, htr, ih1]
        rfl
      · rw [ih2, htake, htot, sumLenData_append, Nat.mod_add_mod, Nat.add_assoc]
        simp [sumLenData]
    · obtain ⟨htake, htot⟩ := hfail hrc
      have hlt1 : (go_snf_recv_many E T s t v).vec.total_len < U32MOD := by
        rw [htot]; exact hlt
      obtain ⟨ih1, ih2, ih3, ih4⟩ := ih (go_snf_recv_many E T s t v).ring
        (go_snf_recv_many E T s t v).vec hin hlt1
      refine ⟨?_, ?_, ih3, ih4⟩
      · rw [noReturnEvents_append, htr, ih1]
        rfl
      · rw [ih2, htake, htot]
        rfl

def c10T : Transport Nat :=
  ⟨fun n _ => ⟨0, ⟨[], 0, 0, 0, if n = 0 then 4294967295 else 2, 0⟩, n + 1⟩,
   fun n _ _ => ⟨0, [], n⟩,
   fun n _ => ⟨0, n⟩⟩

def c10v : RecvReqMany := ⟨[zeroReq], [0], 1, 0, 0, ⟨0, none⟩⟩

/-- Counterexample to claim C10 as stated: on a capacity-1 batch that
first receives a packet with length_data 4294967295 and then one with
length_data 2, the uint32_t total wraps to 1, which is neither the exact
lifetime sum 4294967297 nor at least the previous total, refuting both
the exact-sum and the monotonicity statements. -/
theorem claim_C10_counterexample :
    (go_snf_iterate evalAccept c10T 0 1 0 c10v).vec.total_len = 4294967295 ∧
    (go_snf_iterate evalAccept c10T 0 2 0 c10v).vec.total_len = 1 ∧
    sumLenData (go_snf_iterate evalAccept c10T 0 2 0 c10v).recvd =
      4294967297 ∧
    ¬ (go_snf_iterate evalAccept c10T 0 1 0 c10v).vec.total_len ≤
        (go_snf_iterate evalAccept c10T 0 2 0 c10v).vec.total_len := by
  refine ⟨by decide, by decide, by decide, by decide⟩

/-- Claim C10 amended: on a capacity-1 batch the receive path never
issues a return call, and across any number of receive cycles the
borrowed-byte total equals the sum of length_data over all successfully
received packets reduced modulo 2^32 (hence the exact sum only while
that sum stays below 2^32, and it can decrease when the sum wraps). -/
theorem claim_C10_amended :
    ∀ (σ : Type) (E : PcapEval) (T : Transport σ) (t : Int) (n : Nat) (s : σ)
      (v : RecvReqMany), v.nreq_in = 1 → v.total_len < U32MOD →
      noReturnEvents (go_snf_iterate E T t n s v).trace = true ∧
      (go_snf_iterate E T t n s v).vec.total_len =
        (v.total_len + sumLenData (go_snf_iterate E T t n s v).recvd) %
          U32MOD :=
  fun _σ E T t n s v h hlt =>
    ⟨(go_snf_iterate_cap1 E T t n s v h hlt).1,
     (go_snf_iterate_cap1 E T t n s v h hlt).2.1⟩

def c10wT : Transport Nat :=
  ⟨fun n _ => ⟨if n = 1 then 3 else 0, ⟨[], 0, 0, 0, 40 + n, 0⟩, n + 1⟩,
   fun n _ _ => ⟨0, [], n⟩,
   fun n _ => ⟨0, n⟩⟩

/-- Witness for the amended claim C10: three capacity-1 cycles of which
the middle receive fails leave a borrowed total of 40 + 42 = 82, the
modular sum over the two successful receives, with a return-free
trace. -/
theorem claim_C10_witness :
    noReturnEvents (go_snf_iterate evalAccept c10wT 0 3 0 c10v).trace = true ∧
    (go_snf_iterate evalAccept c10wT 0 3 0 c10v).vec.total_len =
      (0 + sumLenData (go_snf_iterate evalAccept c10wT 0 3 0 c10v).recvd) %
        U32MOD ∧
    (go_snf_iterate evalAccept c10wT 0 3 0 c10v).vec.total_len = 82 := by
  refine ⟨(claim_C10_amended Nat evalAccept c10wT 0 3 0 c10v rfl (by decide)).1,
    (claim_C10_amended Nat evalAccept c10wT 0 3 0 c10v rfl (by decide)).2,
    by decide⟩

end GoSnf
